import Mathlib

/-!
Verification of the flingoos-shared contract library.

This file embeds the two pieces of runtime logic of the repository:

* the content-resolution / translation-freshness logic
  (`getCanonicalContent`, `getResolvedContent` in `src/schemas.ts`,
  `getTextDirection` / `RTL_LANGUAGES` in `src/video-artifacts.ts`), and
* the usage-counter mapping (`getCounterUpdates` in
  `src/usage-logging/server.ts`),

as executable Lean definitions, and proves the specified properties about
them.  JavaScript `unknown` payload values are modelled by the small
`JsValue` type below, which carries exactly what the embedded functions
observe about such a value: its identity (for deep equality) and its
truthiness.  `undefined`/`null` option-like fields are modelled with
`Option`, and JavaScript truthiness of optional strings (`undefined`,
`null` and `""` are falsy) with `strOptTruthy`.
-/

namespace FlingoosShared

/-- A JavaScript runtime value as far as the embedded functions observe it:
the resolver and the canonical accessor treat `content` and
`translatedContent` as opaque (`unknown`) payloads, only testing
truthiness and passing them through.  `obj tag` stands for an arbitrary
object payload (objects are always truthy); scalar constructors cover the
falsy values (`undefined`, `null`, `false`, `0`, `""`). -/
inductive JsValue where
  | undef : JsValue
  | null : JsValue
  | bool : Bool → JsValue
  | num : Int → JsValue
  | str : String → JsValue
  | obj : Nat → JsValue
deriving Repr, DecidableEq

/-- JavaScript truthiness of a `JsValue`. -/
def jsTruthy : JsValue → Bool
  | .undef => false
  | .null => false
  | .bool b => b
  | .num n => n != 0
  | .str s => s != ""
  | .obj _ => true

/-- JavaScript truthiness of a `string | undefined | null` value:
`undefined`, `null` and the empty string are falsy. -/
def strOptTruthy : Option String → Bool
  | none => false
  | some s => s != ""

/-- `TranslationEntry` (from `TranslationEntrySchema` in `src/schemas.ts`):
a cached translation artifact.  `status` is kept as a string, as the
resolver compares it against string literals at runtime. -/
structure TranslationEntry where
  translatedContent : JsValue := .undef
  translatedAt : String := ""
  sourceRevision : Int := 0
  sourceFingerprint : String := ""
  status : String := ""
  model : Option String := none
  error : Option String := none
deriving Repr, DecidableEq

/-- The `content_metadata` field of `SessionContentDoc`. -/
structure ContentMetadata where
  output_language : Option String := none
  detected_language : Option String := none
deriving Repr, DecidableEq

/-- `SessionContentDoc` (from `src/schemas.ts`): the minimal session
document shape used by `getCanonicalContent` / `getResolvedContent`.
`translations` is a record keyed by language code, modelled as an
association list (at most one entry per key). -/
structure SessionContentDoc where
  content : JsValue := .undef
  content_metadata : Option ContentMetadata := none
  originalLanguage : Option String := none
  contentRevision : Option Int := none
  contentFingerprint : Option String := none
  translations : Option (List (String × TranslationEntry)) := none
  updated_at : Option String := none
deriving Repr

/-- `FreshnessStatus` (from `FreshnessStatusSchema` in `src/schemas.ts`). -/
inductive FreshnessStatus where
  | canonical : FreshnessStatus
  | ready : FreshnessStatus
  | stale : FreshnessStatus
  | missing : FreshnessStatus
deriving Repr, DecidableEq

/-- Text direction values `rtl | ltr | auto`. -/
inductive Dir where
  | rtl : Dir
  | ltr : Dir
  | auto : Dir
deriving Repr, DecidableEq

/-- `ResolvedContentResult` (from `src/schemas.ts`). -/
structure ResolvedContentResult where
  contentToUse : JsValue
  dir : Dir
  languageUsed : String
  freshnessStatus : FreshnessStatus
deriving Repr, DecidableEq

/-- `RTL_LANGUAGES` (from `src/video-artifacts.ts`): the static set of
right-to-left language codes. -/
def RTL_LANGUAGES : List String := ["ar", "he"]

/-- `getTextDirection` (from `src/video-artifacts.ts`): `auto` when the
language is falsy (`undefined`/`null`/`""`) or the `"auto"` sentinel,
`rtl` for codes in `RTL_LANGUAGES`, `ltr` for everything else. -/
def getTextDirection (language : Option String) : Dir :=
  match language with
  | none => .auto
  | some l =>
    if l = "" ∨ l = "auto" then .auto
    else if l ∈ RTL_LANGUAGES then .rtl
    else .ltr

/-- `getEffectiveOriginalLanguage` (private helper in `src/schemas.ts`):
reads `detected_language` when `output_language` is the `"auto"`
sentinel, otherwise `output_language`. -/
def getEffectiveOriginalLanguage (metadata : Option ContentMetadata) : Option String :=
  match metadata with
  | none => none
  | some m => if m.output_language = some "auto" then m.detected_language else m.output_language

/-- The effective original language of a session, as computed at the top of
`getResolvedContent`: `session.originalLanguage ?? getEffectiveOriginalLanguage(session.content_metadata)`
(nullish coalescing: an empty-string `originalLanguage` is kept). -/
def sessionOriginalLanguage (s : SessionContentDoc) : Option String :=
  s.originalLanguage.orElse fun _ => getEffectiveOriginalLanguage s.content_metadata

/-- The effective requested language, as computed in `getResolvedContent`:
`selectedLang && selectedLang !== 'auto' ? selectedLang : originalLang`. -/
def effectiveRequestedLanguage (originalLang selectedLang : Option String) : Option String :=
  match selectedLang with
  | some sl => if sl ≠ "" ∧ sl ≠ "auto" then some sl else originalLang
  | none => originalLang

/-- `getCanonicalContent` (from `src/schemas.ts`): the canonical content of
a session, or `undefined` when the session is absent. -/
def getCanonicalContent (session : Option SessionContentDoc) : JsValue :=
  match session with
  | none => .undef
  | some s => s.content

/-- `getResolvedContent` (from `src/schemas.ts`): content to display plus
direction, language used and freshness for a requested language selector.
Mirrors the source branch for branch; in the translation-lookup branch the
effective requested language is necessarily a nonempty `some`, so
`lang.getD ""` recovers the string the source indexes with. -/
def getResolvedContent (session : Option SessionContentDoc)
    (selectedLang : Option String) : Option ResolvedContentResult :=
  match session with
  | none => none
  | some s =>
    if jsTruthy s.content then
      let canonical := s.content
      let originalLang := sessionOriginalLanguage s
      let lang := effectiveRequestedLanguage originalLang selectedLang
      let dir := getTextDirection lang
      if ¬ strOptTruthy lang ∨ lang = originalLang then
        some { contentToUse := canonical
               dir := dir
               languageUsed := (originalLang.orElse fun _ => lang).getD "en"
               freshnessStatus := .canonical }
      else
        let L := lang.getD ""
        match (s.translations.getD []).lookup L with
        | none =>
          some { contentToUse := canonical
                 dir := dir
                 languageUsed := originalLang.getD "en"
                 freshnessStatus := .missing }
        | some entry =>
          if entry.status = "ready" then
            some { contentToUse := entry.translatedContent
                   dir := dir
                   languageUsed := L
                   freshnessStatus := .ready }
          else if entry.status = "stale" then
            some { contentToUse := entry.translatedContent
                   dir := dir
                   languageUsed := L
                   freshnessStatus := .stale }
          else
            some { contentToUse := canonical
                   dir := dir
                   languageUsed := originalLang.getD "en"
                   freshnessStatus := .missing }
    else none

/-- The event property bag fields read by `getCounterUpdates`
(`src/usage-logging/server.ts`).  The source takes a
`Record<string, unknown>`; these are the keys it inspects.  The string
properties are compared against string literals and tested for
truthiness; the numeric properties are guarded by
`typeof x === 'number' && x > 0` (a present non-number value behaves like
an absent one there, so `Option` of a number type is a faithful model;
`Rat` stands for the JavaScript number, on which the function does no
arithmetic beyond the positivity test). -/
structure UsageProperties where
  recording_source : Option String := none
  output_type : Option String := none
  session_type : Option String := none
  session_duration_ms : Option Rat := none
  input_tokens : Option Rat := none
  output_tokens : Option Rat := none
  cost_usd : Option Rat := none
deriving Repr

/-- `CounterUpdates`: the mapping from counter-field name to increment
amount returned by `getCounterUpdates`.  The source stores
`increment(n)` values in insertion order under distinct keys; the model
stores the amount `n` in an association list (no key is assigned twice in
any single call). -/
def CounterUpdates := List (String × Rat)
deriving Repr, DecidableEq

/-- The increment recorded for counter field `k` (`0` when the field is
absent from the mapping). -/
def getCount (u : CounterUpdates) (k : String) : Rat :=
  ((List.lookup k u).getD 0 : Rat)

/-- `getCounterUpdates` (from `src/usage-logging/server.ts`): the
action-to-counter-increment lookup table.  The `increment` function
parameter of the source is abstracted away: the model records the amount
passed to it.  Branch for branch with the source `switch`; actions with
no `case` fall through to the empty mapping. -/
def getCounterUpdates (action : String) (properties : Option UsageProperties) : CounterUpdates :=
  if action = "session" then
    let recordingSource := properties.bind (·.recording_source)
    let outputType := properties.bind (·.output_type)
    [("sessions_started", (1 : Rat))]
    ++ (if recordingSource = some "screen" then [("sessions_screen", (1 : Rat))]
        else if recordingSource = some "camera" then [("sessions_camera", (1 : Rat))]
        else [])
    ++ (if outputType = some "workflow" then [("sessions_workflow", (1 : Rat))]
        else if outputType = some "teach_ai" then [("sessions_teach_ai", (1 : Rat))]
        else [])
    ++ (if ¬ strOptTruthy recordingSource ∧ ¬ strOptTruthy outputType then
          match properties.bind (·.session_type) with
          | some "screen" => [("sessions_screen", (1 : Rat)), ("sessions_workflow", (1 : Rat))]
          | some "camera" => [("sessions_camera", (1 : Rat)), ("sessions_workflow", (1 : Rat))]
          | some "teach_ai" => [("sessions_screen", (1 : Rat)), ("sessions_teach_ai", (1 : Rat))]
          | _ => []
        else [])
    ++ (if strOptTruthy recordingSource ∧ ¬ strOptTruthy outputType then
          [("sessions_workflow", (1 : Rat))]
        else if ¬ strOptTruthy recordingSource ∧ strOptTruthy outputType then
          [("sessions_screen", (1 : Rat))]
        else [])
  else if action = "session_complete" then
    [("sessions_completed", (1 : Rat))]
    ++ (match properties.bind (·.session_duration_ms) with
        | some d => if 0 < d then [("total_session_duration_ms", d)] else []
        | none => [])
  else if action = "workflow_edit" then [("workflow_edits", (1 : Rat))]
  else if action = "publish" then [("publishes", (1 : Rat))]
  else if action = "export" then [("exports", (1 : Rat))]
  else if action = "chatbot_message" then [("chatbot_messages", (1 : Rat))]
  else if action = "enrich_click" then [("enrich_clicks", (1 : Rat))]
  else if action = "daily_active_user" then [("unique_users", (1 : Rat))]
  else if action = "mcp_context_list" then
    [("mcp_context_list", (1 : Rat)), ("mcp_total", (1 : Rat))]
  else if action = "mcp_context_get" then
    [("mcp_context_get", (1 : Rat)), ("mcp_total", (1 : Rat))]
  else if action = "mcp_context_search" then
    [("mcp_context_search", (1 : Rat)), ("mcp_total", (1 : Rat))]
  else if action = "mcp_context_modify" then
    [("mcp_context_modify", (1 : Rat)), ("mcp_total", (1 : Rat))]
  else if action = "video_forge_analysis" ∨ action = "video_forge_augmentation" then
    (match properties.bind (·.input_tokens) with
     | some n => if 0 < n then [("video_forge_input_tokens", n)] else []
     | none => [])
    ++ (match properties.bind (·.output_tokens) with
        | some n => if 0 < n then [("video_forge_output_tokens", n)] else []
        | none => [])
    ++ (match properties.bind (·.cost_usd) with
        | some n => if 0 < n then [("video_forge_cost_usd", n)] else []
        | none => [])
  else []

/-- The switch cases handled by `getCounterUpdates`. -/
def handledActions : List String :=
  ["session", "session_complete", "workflow_edit", "publish", "export",
   "chatbot_message", "enrich_click", "daily_active_user",
   "mcp_context_list", "mcp_context_get", "mcp_context_search", "mcp_context_modify",
   "video_forge_analysis", "video_forge_augmentation"]

end FlingoosShared

namespace FlingoosShared

example :
    getCounterUpdates "session" (some { recording_source := some "screen" }) =
      [("sessions_started", 1), ("sessions_screen", 1), ("sessions_workflow", 1)] := by
  decide

example :
    getCounterUpdates "session" (some { session_type := some "teach_ai" }) =
      [("sessions_started", 1), ("sessions_screen", 1), ("sessions_teach_ai", 1)] := by
  decide

example : getCounterUpdates "session" (some {}) = [("sessions_started", 1)] := by decide

example : getCounterUpdates "unpublish" none = [] := by decide

example :
    getResolvedContent
      (some { content := .obj 1
              content_metadata := some { output_language := some "en" }
              translations := some [("es", { translatedContent := .obj 2, status := "ready" })] })
      (some "es")
    = some { contentToUse := .obj 2, dir := .ltr, languageUsed := "es", freshnessStatus := .ready } := by
  decide

example :
    getResolvedContent
      (some { content := .obj 1
              content_metadata := some { output_language := some "en" }
              translations := some [("es", { translatedContent := .obj 2, status := "ready" })] })
      (some "de")
    = some { contentToUse := .obj 1, dir := .ltr, languageUsed := "en", freshnessStatus := .missing } := by
  decide

example :
    getResolvedContent
      (some { content := .obj 1
              content_metadata := some { output_language := some "auto", detected_language := some "fr" } })
      (some "auto")
    = some { contentToUse := .obj 1, dir := .ltr, languageUsed := "fr", freshnessStatus := .canonical } := by
  decide

/-- Helper: an optional string is JavaScript-falsy exactly when it is
absent or empty. -/
theorem strOptTruthy_eq_false (v : Option String) :
    strOptTruthy v = false ↔ v = none ∨ v = some "" := by
  cases v with
  | none => simp [strOptTruthy]
  | some s => simp [strOptTruthy]

/-- Claim C7: `getResolvedContent` is total — for every session argument
(present or absent, with or without content, metadata, or translations)
and every selector, it returns a defined value: a result exactly when the
session is present with truthy content, and the absent sentinel (`none`)
otherwise, never an exception. -/
theorem getResolvedContent_total (session : Option SessionContentDoc) (sel : Option String) :
    (getResolvedContent session sel).isSome =
      (match session with
       | none => false
       | some s => jsTruthy s.content) := by
  cases session with
  | none => rfl
  | some s =>
    cases h : jsTruthy s.content with
    | false => simp [getResolvedContent, h]
    | true =>
      simp only [getResolvedContent, h, if_true]
      repeat' split
      all_goals rfl

/-- Claim C5, counterexample: the language code `"xx"` belongs to no known
language set of the source (neither `RTL_LANGUAGES` nor the supported
output-language list), yet `getTextDirection` maps it to `ltr`, not to
`auto` as the claim states for codes with no known direction. -/
theorem getTextDirection_unknown_code_ltr :
    "xx" ∉ RTL_LANGUAGES
    ∧ getTextDirection (some "xx") = Dir.ltr
    ∧ getTextDirection (some "xx") ≠ Dir.auto := by
  decide

/-- Claim C5 (amended): `getTextDirection` returns `auto` exactly for an
absent (`undefined`/`null`), empty, or `"auto"` value; `rtl` exactly for
the codes of `RTL_LANGUAGES` (`"ar"` and `"he"`); and `ltr` for every
other language code, including codes with no known direction; in
particular `"en"`, `"es"` and `"fr"` resolve to `ltr`. -/
theorem getTextDirection_cases (v : Option String) :
    (getTextDirection v = Dir.auto ↔ v = none ∨ v = some "" ∨ v = some "auto")
    ∧ (getTextDirection v = Dir.rtl ↔ v = some "ar" ∨ v = some "he")
    ∧ getTextDirection (some "en") = Dir.ltr
    ∧ getTextDirection (some "es") = Dir.ltr
    ∧ getTextDirection (some "fr") = Dir.ltr := by
  refine ⟨?_, ?_, by decide, by decide, by decide⟩
  · cases v with
    | none => simp [getTextDirection]
    | some l =>
      simp only [getTextDirection]
      split_ifs with h1 h2
      · rcases h1 with h | h <;> subst h <;> simp
      · push_neg at h1
        simp only [RTL_LANGUAGES, List.mem_cons, List.not_mem_nil, or_false] at h2
        constructor
        · intro hc; exact absurd hc (by decide)
        · rintro (h | h | h) <;> simp_all
      · push_neg at h1
        constructor
        · intro hc; exact absurd hc (by decide)
        · rintro (h | h | h) <;> simp_all
  · cases v with
    | none => simp [getTextDirection]
    | some l =>
      simp only [getTextDirection]
      split_ifs with h1 h2
      · rcases h1 with h | h <;> subst h <;> simp
      · simp only [RTL_LANGUAGES, List.mem_cons, List.not_mem_nil, or_false] at h2
        rcases h2 with h | h <;> subst h <;> simp
      · push_neg at h1
        simp only [RTL_LANGUAGES, List.mem_cons, List.not_mem_nil, or_false, not_or] at h2
        constructor
        · intro hc; exact absurd hc (by decide)
        · rintro (h | h) <;> simp_all

/-- Claim C6: `getCanonicalContent` returns exactly `session.content` for
every present session — deep-equal, verbatim, unchanged by any value of
the `translations` field — and the absent sentinel (`undefined`) when the
session is absent; it is a pure function of the session and performs no
mutation. -/
theorem getCanonicalContent_spec :
    (∀ (s : SessionContentDoc) (tr tr' : Option (List (String × TranslationEntry))),
        getCanonicalContent (some { s with translations := tr }) = s.content
        ∧ getCanonicalContent (some { s with translations := tr })
            = getCanonicalContent (some { s with translations := tr' }))
    ∧ getCanonicalContent none = JsValue.undef :=
  ⟨fun _ _ _ => ⟨rfl, rfl⟩, rfl⟩

/-- Claim C8: for every action identifier outside the handled cases of the
mapping table, and every property bag (present, or absent), the pure
function `getCounterUpdates` returns the empty mapping and signals no
error. -/
theorem getCounterUpdates_unknown_action (action : String)
    (props : Option UsageProperties) (h : action ∉ handledActions) :
    getCounterUpdates action props = [] := by
  simp only [handledActions, List.mem_cons, List.not_mem_nil, or_false, not_or] at h
  obtain ⟨h1, h2, h3, h4, h5, h6, h7, h8, h9, h10, h11, h12, h13, h14⟩ := h
  simp [getCounterUpdates, h1, h2, h3, h4, h5, h6, h7, h8, h9, h10, h11, h12, h13, h14]

/-- Witness for claim C8: the unknown action `"unpublish"` (a valid
`UsageAction` with no switch case) yields the empty mapping. -/
theorem getCounterUpdates_unknown_action_witness :
    "unpublish" ∉ handledActions ∧ getCounterUpdates "unpublish" none = [] :=
  ⟨by decide, getCounterUpdates_unknown_action "unpublish" none (by decide)⟩

/-- Claim C9: a session whose `content` is a falsy value that is not
absent (for example the empty string) makes `getResolvedContent` return
the absent result for every selector, while `getCanonicalContent` still
returns that same falsy value for the same session. -/
theorem getResolvedContent_falsy_content (s : SessionContentDoc) (sel : Option String)
    (h : jsTruthy s.content = false) :
    getResolvedContent (some s) sel = none
    ∧ getCanonicalContent (some s) = s.content := by
  refine ⟨?_, rfl⟩
  simp [getResolvedContent, h]

/-- Witness for claim C9: the session with empty-string content — the
resolver reports no result, while the canonical accessor yields the
present (non-`undefined`) value `""`. -/
theorem getResolvedContent_falsy_content_witness :
    jsTruthy (JsValue.str "") = false
    ∧ getResolvedContent (some ({ content := JsValue.str "" } : SessionContentDoc)) none = none
    ∧ getCanonicalContent (some ({ content := JsValue.str "" } : SessionContentDoc)) = JsValue.str ""
    ∧ JsValue.str "" ≠ JsValue.undef := by
  have h := getResolvedContent_falsy_content ({ content := JsValue.str "" } : SessionContentDoc)
    none (by decide)
  exact ⟨by decide, h.1, h.2, by decide⟩

/-- Claim C2: for a session with canonical (truthy) content, whenever the
requested selector is absent (`undefined`/`null`), the `"auto"` sentinel,
or equal to the effective original language, `getResolvedContent` returns
the canonical content with freshness `canonical`, `languageUsed` equal to
the effective original language (falling back to `"en"` when it cannot be
determined — in these cases the effective requested language coincides
with the effective original, so the literal-requested fallback step of
the chain yields the same value). -/
theorem getResolvedContent_original_language (s : SessionContentDoc) (sel : Option String)
    (hc : jsTruthy s.content = true)
    (hsel : sel = none ∨ sel = some "auto"
      ∨ (∃ L, sel = some L ∧ sessionOriginalLanguage s = some L)) :
    getResolvedContent (some s) sel =
      some { contentToUse := s.content
             dir := getTextDirection (sessionOriginalLanguage s)
             languageUsed := (sessionOriginalLanguage s).getD "en"
             freshnessStatus := .canonical } := by
  have hlang : effectiveRequestedLanguage (sessionOriginalLanguage s) sel
      = sessionOriginalLanguage s := by
    rcases hsel with h | h | ⟨L, hL, hOrig⟩
    · subst h; rfl
    · subst h; simp [effectiveRequestedLanguage]
    · subst hL
      simp only [effectiveRequestedLanguage]
      rw [hOrig]
      split_ifs <;> rfl
  cases horig : sessionOriginalLanguage s with
  | none =>
    rw [horig] at hlang
    simp [getResolvedContent, hc, hlang, horig, strOptTruthy, Option.orElse]
  | some ol =>
    rw [horig] at hlang
    simp [getResolvedContent, hc, hlang, horig, strOptTruthy, Option.orElse]

/-- Witness for claim C2: a session authored in English, selector absent —
canonical content is returned with freshness `canonical` and
`languageUsed = "en"`. -/
theorem getResolvedContent_original_language_witness :
    jsTruthy (JsValue.obj 1) = true
    ∧ getResolvedContent
        (some ({ content := .obj 1
                 content_metadata := some { output_language := some "en" } } : SessionContentDoc))
        none
      = some { contentToUse := .obj 1, dir := .ltr, languageUsed := "en",
               freshnessStatus := .canonical } := by
  have h := getResolvedContent_original_language
    ({ content := .obj 1
       content_metadata := some { output_language := some "en" } } : SessionContentDoc)
    none rfl (Or.inl rfl)
  refine ⟨rfl, ?_⟩
  rw [h]
  decide

/-- Helper: when the selector is a nonempty, non-`"auto"` language code
different from the effective original language, `getResolvedContent`
reduces to the translation-lookup branch of the source. -/
theorem getResolvedContent_lookup_branch (s : SessionContentDoc) (L : String)
    (hc : jsTruthy s.content = true) (hL1 : L ≠ "") (hL2 : L ≠ "auto")
    (hne : some L ≠ sessionOriginalLanguage s) :
    getResolvedContent (some s) (some L) =
      match (s.translations.getD []).lookup L with
      | none =>
        some { contentToUse := s.content, dir := getTextDirection (some L),
               languageUsed := (sessionOriginalLanguage s).getD "en",
               freshnessStatus := .missing }
      | some entry =>
        if entry.status = "ready" then
          some { contentToUse := entry.translatedContent, dir := getTextDirection (some L),
                 languageUsed := L, freshnessStatus := .ready }
        else if entry.status = "stale" then
          some { contentToUse := entry.translatedContent, dir := getTextDirection (some L),
                 languageUsed := L, freshnessStatus := .stale }
        else
          some { contentToUse := s.content, dir := getTextDirection (some L),
                 languageUsed := (sessionOriginalLanguage s).getD "en",
                 freshnessStatus := .missing } := by
  have hlang : effectiveRequestedLanguage (sessionOriginalLanguage s) (some L) = some L := by
    simp [effectiveRequestedLanguage, hL1, hL2]
  have hcond : ¬ (¬ strOptTruthy (some L) = true ∨ some L = sessionOriginalLanguage s) := by
    rintro (h | h)
    · exact h (by simp [strOptTruthy, hL1])
    · exact hne h
  simp only [getResolvedContent, hc, if_true, hlang, if_neg hcond, Option.getD_some]

/-- Claim C3: for a requested language L (nonempty, not the `"auto"`
sentinel) different from the effective original language, a translation
entry for L with status `ready` is served as-is with freshness `ready`,
and an entry with status `stale` is still served (not replaced by
canonical content) with freshness `stale`; in both cases
`languageUsed = L`. -/
theorem getResolvedContent_translation_entry (s : SessionContentDoc) (L : String)
    (entry : TranslationEntry)
    (hc : jsTruthy s.content = true) (hL1 : L ≠ "") (hL2 : L ≠ "auto")
    (hne : some L ≠ sessionOriginalLanguage s)
    (hlook : (s.translations.getD []).lookup L = some entry) :
    (entry.status = "ready" →
      getResolvedContent (some s) (some L) =
        some { contentToUse := entry.translatedContent, dir := getTextDirection (some L),
               languageUsed := L, freshnessStatus := .ready })
    ∧ (entry.status = "stale" →
      getResolvedContent (some s) (some L) =
        some { contentToUse := entry.translatedContent, dir := getTextDirection (some L),
               languageUsed := L, freshnessStatus := .stale }) := by
  rw [getResolvedContent_lookup_branch s L hc hL1 hL2 hne, hlook]
  constructor
  · intro hst; simp [hst]
  · intro hst; simp [hst]

/-- Witness for claim C3: an English session with a ready Spanish entry
and a stale German entry — requesting `"es"` serves the Spanish
translation with freshness `ready`, requesting `"de"` serves the stale
German translation with freshness `stale`. -/
theorem getResolvedContent_translation_entry_witness :
    getResolvedContent
        (some ({ content := .obj 1
                 content_metadata := some { output_language := some "en" }
                 translations := some
                   [("es", { translatedContent := .obj 2, status := "ready" }),
                    ("de", { translatedContent := .obj 3, status := "stale" })] } : SessionContentDoc))
        (some "es")
      = some { contentToUse := .obj 2, dir := .ltr, languageUsed := "es",
               freshnessStatus := .ready }
    ∧ getResolvedContent
        (some ({ content := .obj 1
                 content_metadata := some { output_language := some "en" }
                 translations := some
                   [("es", { translatedContent := .obj 2, status := "ready" }),
                    ("de", { translatedContent := .obj 3, status := "stale" })] } : SessionContentDoc))
        (some "de")
      = some { contentToUse := .obj 3, dir := .ltr, languageUsed := "de",
               freshnessStatus := .stale } := by
  constructor
  · exact (getResolvedContent_translation_entry
      ({ content := .obj 1
         content_metadata := some { output_language := some "en" }
         translations := some
           [("es", { translatedContent := .obj 2, status := "ready" }),
            ("de", { translatedContent := .obj 3, status := "stale" })] } : SessionContentDoc)
      "es" { translatedContent := .obj 2, status := "ready" }
      (by decide) (by decide) (by decide) (by decide) (by decide)).1 rfl
  · exact (getResolvedContent_translation_entry
      ({ content := .obj 1
         content_metadata := some { output_language := some "en" }
         translations := some
           [("es", { translatedContent := .obj 2, status := "ready" }),
            ("de", { translatedContent := .obj 3, status := "stale" })] } : SessionContentDoc)
      "de" { translatedContent := .obj 3, status := "stale" }
      (by decide) (by decide) (by decide) (by decide) (by decide)).2 rfl

/-- Claim C4: for a requested language L (nonempty, not the `"auto"`
sentinel) different from the effective original language, the absence of
a translation entry for L and an entry with status `in_progress` or
`failed` all produce the identical fallback result: canonical content,
freshness `missing`, `languageUsed` the effective original language (or
`"en"` when it cannot be determined). -/
theorem getResolvedContent_missing_fallback (s : SessionContentDoc) (L : String)
    (hc : jsTruthy s.content = true) (hL1 : L ≠ "") (hL2 : L ≠ "auto")
    (hne : some L ≠ sessionOriginalLanguage s)
    (hmiss : (s.translations.getD []).lookup L = none
      ∨ ∃ entry, (s.translations.getD []).lookup L = some entry
          ∧ (entry.status = "in_progress" ∨ entry.status = "failed")) :
    getResolvedContent (some s) (some L) =
      some { contentToUse := s.content, dir := getTextDirection (some L),
             languageUsed := (sessionOriginalLanguage s).getD "en",
             freshnessStatus := .missing } := by
  rw [getResolvedContent_lookup_branch s L hc hL1 hL2 hne]
  rcases hmiss with h | ⟨entry, hlook, hst⟩
  · rw [h]
  · rw [hlook]
    rcases hst with h | h <;> simp [h]

/-- Witness for claim C4: an English session with an `in_progress` French
entry and a `failed` Italian entry — requesting `"fr"`, `"it"`, or the
entry-less `"pt"` all yield the identical canonical-fallback result with
freshness `missing` and `languageUsed = "en"`. -/
theorem getResolvedContent_missing_fallback_witness :
    getResolvedContent
        (some ({ content := .obj 1
                 content_metadata := some { output_language := some "en" }
                 translations := some
                   [("fr", { translatedContent := .obj 2, status := "in_progress" }),
                    ("it", { translatedContent := .obj 3, status := "failed" })] } : SessionContentDoc))
        (some "fr")
      = some { contentToUse := .obj 1, dir := .ltr, languageUsed := "en",
               freshnessStatus := .missing }
    ∧ getResolvedContent
        (some ({ content := .obj 1
                 content_metadata := some { output_language := some "en" }
                 translations := some
                   [("fr", { translatedContent := .obj 2, status := "in_progress" }),
                    ("it", { translatedContent := .obj 3, status := "failed" })] } : SessionContentDoc))
        (some "it")
      = some { contentToUse := .obj 1, dir := .ltr, languageUsed := "en",
               freshnessStatus := .missing }
    ∧ getResolvedContent
        (some ({ content := .obj 1
                 content_metadata := some { output_language := some "en" }
                 translations := some
                   [("fr", { translatedContent := .obj 2, status := "in_progress" }),
                    ("it", { translatedContent := .obj 3, status := "failed" })] } : SessionContentDoc))
        (some "pt")
      = some { contentToUse := .obj 1, dir := .ltr, languageUsed := "en",
               freshnessStatus := .missing } := by
  refine ⟨?_, ?_, ?_⟩
  · exact getResolvedContent_missing_fallback
      ({ content := .obj 1
         content_metadata := some { output_language := some "en" }
         translations := some
           [("fr", { translatedContent := .obj 2, status := "in_progress" }),
            ("it", { translatedContent := .obj 3, status := "failed" })] } : SessionContentDoc)
      "fr" (by decide) (by decide) (by decide) (by decide)
      (Or.inr ⟨{ translatedContent := .obj 2, status := "in_progress" }, by decide, Or.inl rfl⟩)
  · exact getResolvedContent_missing_fallback
      ({ content := .obj 1
         content_metadata := some { output_language := some "en" }
         translations := some
           [("fr", { translatedContent := .obj 2, status := "in_progress" }),
            ("it", { translatedContent := .obj 3, status := "failed" })] } : SessionContentDoc)
      "it" (by decide) (by decide) (by decide) (by decide)
      (Or.inr ⟨{ translatedContent := .obj 3, status := "failed" }, by decide, Or.inr rfl⟩)
  · exact getResolvedContent_missing_fallback
      ({ content := .obj 1
         content_metadata := some { output_language := some "en" }
         translations := some
           [("fr", { translatedContent := .obj 2, status := "in_progress" }),
            ("it", { translatedContent := .obj 3, status := "failed" })] } : SessionContentDoc)
      "pt" (by decide) (by decide) (by decide) (by decide)
      (Or.inl (by decide))

/-- Claim C10: whenever `getResolvedContent` falls back to canonical
content with freshness `missing` (no entry for the requested language, or
an entry whose status is neither `ready` nor `stale`, covering
`in_progress` and `failed`), the `dir` field of the result is computed
from the effective requested language, not from `languageUsed`. -/
theorem getResolvedContent_dir_from_requested (s : SessionContentDoc) (L : String)
    (hc : jsTruthy s.content = true) (hL1 : L ≠ "") (hL2 : L ≠ "auto")
    (hne : some L ≠ sessionOriginalLanguage s)
    (hmiss : (s.translations.getD []).lookup L = none
      ∨ ∃ entry, (s.translations.getD []).lookup L = some entry
          ∧ entry.status ≠ "ready" ∧ entry.status ≠ "stale") :
    ∃ r, getResolvedContent (some s) (some L) = some r
      ∧ r.freshnessStatus = .missing
      ∧ r.contentToUse = s.content
      ∧ r.dir = getTextDirection (some L)
      ∧ r.languageUsed = (sessionOriginalLanguage s).getD "en" := by
  have heq : getResolvedContent (some s) (some L) =
      some { contentToUse := s.content, dir := getTextDirection (some L),
             languageUsed := (sessionOriginalLanguage s).getD "en",
             freshnessStatus := .missing } := by
    rw [getResolvedContent_lookup_branch s L hc hL1 hL2 hne]
    rcases hmiss with h | ⟨entry, hlook, hst1, hst2⟩
    · rw [h]
    · rw [hlook]
      simp [hst1, hst2]
  exact ⟨_, heq, rfl, rfl, rfl, rfl⟩

/-- Witness for claim C10: a session whose effective original language is
`"en"`, requested language `"ar"` with no translation entry — the result
carries the canonical content and `languageUsed = "en"`, yet `dir = rtl`,
the direction of the requested language (while the direction of `"en"`
itself is `ltr`). -/
theorem getResolvedContent_dir_from_requested_witness :
    (∃ r, getResolvedContent
        (some ({ content := .obj 1
                 content_metadata := some { output_language := some "en" } } : SessionContentDoc))
        (some "ar")
      = some r
      ∧ r.freshnessStatus = .missing
      ∧ r.contentToUse = .obj 1
      ∧ r.dir = getTextDirection (some "ar")
      ∧ r.languageUsed = "en")
    ∧ getTextDirection (some "ar") = Dir.rtl
    ∧ getTextDirection (some "en") = Dir.ltr := by
  refine ⟨?_, by decide, by decide⟩
  exact getResolvedContent_dir_from_requested
    ({ content := .obj 1
       content_metadata := some { output_language := some "en" } } : SessionContentDoc)
    "ar" rfl (by decide) (by decide) (by decide) (Or.inl (by decide))

/-- Claim C1, counterexample: for action `"session"` with an empty
property bag (no `recording_source`, no `output_type`, no
`session_type`), `getCounterUpdates` increments only `sessions_started`;
both dimension families sum to `0`, not to the `sessions_started` total
of `1`, so the summed-totals invariant does not hold for this call. -/
theorem getCounterUpdates_session_empty_bag :
    getCount (getCounterUpdates "session" (some ({} : UsageProperties))) "sessions_started" = 1
    ∧ getCount (getCounterUpdates "session" (some ({} : UsageProperties))) "sessions_screen"
        + getCount (getCounterUpdates "session" (some ({} : UsageProperties))) "sessions_camera"
        = 0
    ∧ getCount (getCounterUpdates "session" (some ({} : UsageProperties))) "sessions_workflow"
        + getCount (getCounterUpdates "session" (some ({} : UsageProperties))) "sessions_teach_ai"
        = 0 := by
  simp [getCounterUpdates, getCount, strOptTruthy, List.lookup]

/-- Claim C1 (amended): for action `"session"`, `sessions_started` is
always incremented by `1`; and provided each supplied dimension value is
one of its recognized values (`recording_source` in
`{screen, camera}` or falsy, `output_type` in `{workflow, teach_ai}` or
falsy) and at least one dimension — or a recognized legacy
`session_type` in `{screen, camera, teach_ai}` — is supplied, the
increments to `sessions_screen` plus `sessions_camera` sum to `1` and the
increments to `sessions_workflow` plus `sessions_teach_ai` sum to `1`,
with the legacy property mapped onto both families and a fixed baseline
default (`sessions_screen`, `sessions_workflow`) synthesized for a
missing dimension.  (With no recognized dimension information at all —
e.g. an empty bag — only `sessions_started` is incremented and both
family sums are `0`.) -/
theorem getCounterUpdates_session_dimension_sums (props : UsageProperties)
    (hrs : props.recording_source = some "screen" ∨ props.recording_source = some "camera"
      ∨ strOptTruthy props.recording_source = false)
    (hot : props.output_type = some "workflow" ∨ props.output_type = some "teach_ai"
      ∨ strOptTruthy props.output_type = false)
    (hsupplied : strOptTruthy props.recording_source = true
      ∨ strOptTruthy props.output_type = true
      ∨ props.session_type = some "screen" ∨ props.session_type = some "camera"
      ∨ props.session_type = some "teach_ai") :
    getCount (getCounterUpdates "session" (some props)) "sessions_started" = 1
    ∧ getCount (getCounterUpdates "session" (some props)) "sessions_screen"
        + getCount (getCounterUpdates "session" (some props)) "sessions_camera"
        = 1
    ∧ getCount (getCounterUpdates "session" (some props)) "sessions_workflow"
        + getCount (getCounterUpdates "session" (some props)) "sessions_teach_ai"
        = 1 := by
  obtain ⟨rs, ot, st, dms, itk, otk, cusd⟩ := props
  simp only at hrs hot hsupplied ⊢
  have hrs4 : rs = some "screen" ∨ rs = some "camera" ∨ rs = none ∨ rs = some "" := by
    rcases hrs with h | h | h
    · exact Or.inl h
    · exact Or.inr (Or.inl h)
    · rw [strOptTruthy_eq_false] at h
      rcases h with h | h
      · exact Or.inr (Or.inr (Or.inl h))
      · exact Or.inr (Or.inr (Or.inr h))
  have hot4 : ot = some "workflow" ∨ ot = some "teach_ai" ∨ ot = none ∨ ot = some "" := by
    rcases hot with h | h | h
    · exact Or.inl h
    · exact Or.inr (Or.inl h)
    · rw [strOptTruthy_eq_false] at h
      rcases h with h | h
      · exact Or.inr (Or.inr (Or.inl h))
      · exact Or.inr (Or.inr (Or.inr h))
  clear hrs hot
  rcases hrs4 with rfl | rfl | rfl | rfl <;> rcases hot4 with rfl | rfl | rfl | rfl <;>
    first
      | (simp [getCounterUpdates, getCount, strOptTruthy, List.lookup]; done)
      | (rcases hsupplied with h3 | h3 | rfl | rfl | rfl <;>
          simp_all [getCounterUpdates, getCount, strOptTruthy, List.lookup])

/-- Witness for claim C1 (amended): a bag supplying only
`recording_source = "screen"` — the defensive default adds
`sessions_workflow`, and both families sum to the `sessions_started`
total of `1`. -/
theorem getCounterUpdates_session_dimension_sums_witness :
    getCount (getCounterUpdates "session"
        (some ({ recording_source := some "screen" } : UsageProperties))) "sessions_started" = 1
    ∧ getCount (getCounterUpdates "session"
        (some ({ recording_source := some "screen" } : UsageProperties))) "sessions_screen"
      + getCount (getCounterUpdates "session"
        (some ({ recording_source := some "screen" } : UsageProperties))) "sessions_camera"
      = 1
    ∧ getCount (getCounterUpdates "session"
        (some ({ recording_source := some "screen" } : UsageProperties))) "sessions_workflow"
      + getCount (getCounterUpdates "session"
        (some ({ recording_source := some "screen" } : UsageProperties))) "sessions_teach_ai"
      = 1 :=
  getCounterUpdates_session_dimension_sums
    ({ recording_source := some "screen" } : UsageProperties)
    (Or.inl rfl) (Or.inr (Or.inr rfl)) (Or.inl rfl)

end FlingoosShared
